import Mathlib

/-!
Verification development for `nikonKsSync.py`, a PCAS driver that synchronizes
a Nikon DS-Qi2 detector with an X-ray flux source.

The Python source is shallowly embedded:
* the sequential bodies of `startXray`, `stopXray`, `sync` and part of `write`
  are embedded as traces of atomic actions (`Act`), since the claims about
  them concern which external operations happen and in which order;
* the edge-detection loop `pollQi2` is embedded as a step function on an
  explicit state record, folded over a list of timestamped line samples;
* the statistics bookkeeping of `sync` (scan-busy branch), `afterScan`,
  `scanReport` and `scanAbortSeq` are embedded as pure state functions.
Python floats are modelled as rationals (`ℚ`); all inputs relevant to the
claims (PV reads, DAQ flag, scan-busy flags) are passed as parameters.
-/

namespace NikonKsSync

/-- Atomic externally visible actions performed by the driver code.
`triggerWrite v` is the Trigger Driver writing the digital output line
(`write('SEND_TRIGGER', v)` → `sendTrigger`, lines 356-365 / 444, 450);
`pollTriggerReady` / `pollExposingDone` are the busy-wait polls of the
digital-input-derived records `TRIGGER_READY_RBV` / `EXPOSING_RBV`
(lines 447-448 / 452-453); `sleepFor t` is `time.sleep(t)`;
`softTrigger` is `caput(DET_IOC + 'cam1:SoftTrigger', "1")` (line 457);
`caputXrayOn`, `caputXrayOff`, `caputPulseMode`, `pollFiring` are the flux
source commands of `startXray`/`stopXray`; the `append…`/`publish…` actions
are the per-exposure statistics updates of the scan-busy branch of `sync`;
`logMsg` is a timestamped print. -/
inductive Act where
  | logMsg : Act
  | caputXrayOn : Act
  | caputXrayOff : Act
  | caputPulseMode : Act
  | pollFiring : Act
  | triggerWrite : Nat → Act
  | sleepFor : ℚ → Act
  | pollTriggerReady : Act
  | pollExposingDone : Act
  | softTrigger : Act
  | releaseScanWait : Act
  | appendShutterSample : Act
  | appendDutySample : Act
  | publishDutyCycle : Act
  | appendImageStats : Act
  | runAfterScan : Act
  | setTriggerIdle : Act
  deriving DecidableEq, Repr

/-- Fixed settle delay after each trigger edge: `time.sleep(0.025)`
(lines 445 and 451 of the source). -/
def SETTLE_DELAY : ℚ := 25 / 1000

/-- Embeds `myDriver.startXray` (lines 371-401). `xsync` is the value of the
`XSYNC` enum record (0 = NONE, 1 = SRI, 2 = OXFORD); `status` is the value
read from `XRAY_IOC + 'STATUS_RBV'` (5 = fault, 0 = warming, 1 = standby,
2 = outputting, 3 = pulsing). In the fault, warming and dark (`xsync = 0`)
cases the function only prints and returns; it has no return value that a
caller could branch on (it always returns Python `None`). -/
def startXrayActs (xsync status : ℕ) : List Act :=
  if xsync = 2 then
    if status = 5 then [Act.logMsg]
    else
      if status = 0 then [Act.logMsg]
      else if status = 1 then [Act.caputXrayOn, Act.pollFiring, Act.logMsg]
      else if status = 3 ∨ status = 2 then [Act.caputPulseMode, Act.pollFiring, Act.logMsg]
      else []
  else if xsync = 1 then [Act.caputXrayOn, Act.logMsg]
  else if xsync = 0 then [Act.logMsg]
  else []

/-- Embeds the hard-protocol trigger segment of `myDriver.sync`
(lines 443-454): write low, settle 25 ms, poll `TRIGGER_READY_RBV` until 1,
write high, settle 25 ms, poll `EXPOSING_RBV` until 0. -/
def hardTriggerActs : List Act :=
  [Act.triggerWrite 0, Act.sleepFor SETTLE_DELAY, Act.pollTriggerReady,
   Act.triggerWrite 1, Act.sleepFor SETTLE_DELAY, Act.pollExposingDone]

/-- Embeds the soft-protocol segment of `myDriver.sync` (lines 455-459):
print, software-trigger the detector, sleep for the detector's reported
acquire time (`NIKON_ACQUIRE_TIME_RBV.get()`), print. -/
def softTriggerActs (acquireTime : ℚ) : List Act :=
  [Act.logMsg, Act.softTrigger, Act.sleepFor acquireTime, Act.logMsg]

/-- Embeds `myDriver.stopXray` (lines 403-411) as a trace: a no-op (early
return, not even a print) when `xsync = 0`, otherwise
`caput(XRAY_IOC + 'ON', '0')` followed by the `'X-ray is off'` print. -/
def stopXrayActs (xsync : ℕ) : List Act :=
  if xsync = 0 then [] else [Act.caputXrayOff, Act.logMsg]

/-- Embeds the effect of `myDriver.stopXray` on the commanded flux-source
state (`True` = the source has been commanded on): unchanged when
`xsync = 0`, commanded off otherwise. -/
def stopXrayCmd (xsync : ℕ) (xrayOn : Bool) : Bool :=
  if xsync = 0 then xrayOn else false

/-- Embeds the scan-logic tail of `myDriver.sync` (lines 460-491).
`cpts` is `self.total_cpts` AFTER the `+= 1` at line 462 (the increment
happens only in the scan-busy branch; the argument is ignored otherwise).
When no scan is busy (single exposure) the code runs `stopXray` and resets
`TRIGGER` (lines 488-490). -/
def scanTailActs (flag : ℕ) (report scanBusy : Bool) (cpts totalNpts xsync : ℕ) : List Act :=
  if scanBusy then
    [Act.releaseScanWait, Act.appendShutterSample]
      ++ (if 1 < cpts ∧ flag = 1 then [Act.appendDutySample, Act.publishDutyCycle] else [])
      ++ (if report then [Act.appendImageStats] else [])
      ++ (if totalNpts ≤ cpts then [Act.runAfterScan] else [])
  else stopXrayActs xsync ++ [Act.setTriggerIdle]

/-- Inputs read by one run of `myDriver.sync`: the `XSYNC` mode, the flux
source status, `self.daq_init_flag`, the sscan BUSY flags (collapsed to one
boolean, line 461), the `REPORT` enum, `self.total_cpts` before the run,
the total number of scan points, and the detector's reported acquire time. -/
structure SyncInput where
  xsync : ℕ
  xrayStatus : ℕ
  daqInitFlag : ℕ
  scanBusy : Bool
  report : Bool
  totalCptsBefore : ℕ
  totalNpts : ℕ
  acquireTime : ℚ
  deriving Repr

/-- Embeds one run of `myDriver.sync` (lines 435-491) as a trace:
`startXray`, then the hard or soft trigger segment selected by
`self.daq_init_flag`, then the scan-logic tail. Note that `sync` never
inspects any result of `startXray` (which always returns `None`): the
trigger segment runs regardless of the flux source state. -/
def syncActs (i : SyncInput) : List Act :=
  startXrayActs i.xsync i.xrayStatus
    ++ (if i.daqInitFlag = 1 then hardTriggerActs
        else if i.daqInitFlag = 0 then softTriggerActs i.acquireTime
        else [])
    ++ scanTailActs i.daqInitFlag i.report i.scanBusy (i.totalCptsBefore + 1) i.totalNpts i.xsync

/-- Actions that record or publish per-exposure statistics. -/
def isStatAct : Act → Bool
  | Act.appendShutterSample => true
  | Act.appendDutySample => true
  | Act.publishDutyCycle => true
  | Act.appendImageStats => true
  | _ => false

/-- Actions that touch the DAQ digital lines: Trigger Driver writes and the
busy polls of the two digital-input-derived records. -/
def isHardIOAct : Act → Bool
  | Act.triggerWrite _ => true
  | Act.pollTriggerReady => true
  | Act.pollExposingDone => true
  | _ => false

/-- Embeds the `SEND_TRIGGER` branch of `myDriver.write` (lines 282-286):
the `sendTrigger` thread is spawned only when `self.daq_init_flag == 1`. -/
def writeSendTriggerSpawns (flag : ℕ) : Bool := flag == 1

/-- Embeds the DAQ initialization of `myDriver.__init__` (lines 170-191):
the `pollQi2` edge-poller thread is started inside the `try` block, i.e.
exactly when DAQ task creation succeeds and `daq_init_flag` becomes 1. -/
def pollerThreadStarted (flag : ℕ) : Bool := flag == 1

/-- Embeds the `SYNC_MODE_RBV` branch of `myDriver.write` (lines 307-313):
the written value is discarded and replaced by 1 when `self.daq_init_flag`
is 1 and by 0 when it is 0, and the replaced value is what `setParam`
stores. -/
def writeSyncModeRBV (flag : ℕ) (value : ℤ) : ℤ :=
  if flag = 1 then 1 else if flag = 0 then 0 else value

/-! ### Edge poller (`myDriver.pollQi2`, lines 316-354) -/

/-- Instance state of the edge-poller loop: `oldReady`/`oldExposing` are
`oldval[0]`/`oldval[1]`; the remaining fields are the driver attributes of
the same names (`self.idleTime`, `self.shutter_close`, `self.shutter_open`,
`self.trigger_not_ready_rbv`, `self.shutterTime`, `self.notExposing`) and
the published records `IDLE_RBV`, `ACQUIRE_RBV`,
`TRIGGER_ACQUIRE_DELAY_RBV`. -/
structure PollState where
  oldReady : Bool
  oldExposing : Bool
  idleTime : ℚ
  shutter_close : ℚ
  shutter_open : ℚ
  trigger_not_ready_rbv : ℚ
  shutterTime : ℚ
  notExposing : ℚ
  idleRBV : ℚ
  acquireRBV : ℚ
  delayRBV : ℚ
  deriving DecidableEq, Repr

/-- State at driver construction (`__init__`, lines 153-157): all timing
attributes start at 0; the initial `oldval` read (line 320-321) is taken to
return both lines low. -/
def initPollState : PollState :=
  ⟨false, false, 0, 0, 0, 0, 0, 0, 0, 0, 0⟩

/-- One iteration of the `while True` loop of `myDriver.pollQi2`
(lines 322-354) on a sample of the two input lines taken at monotonic time
`t` (`time.clock()`): `newReady` is `newval[0]` (trigger-ready line),
`newExposing` is `newval[1]` (exposing line). The ready-line comparison
(lines 328-339) runs before the exposing-line comparison (lines 340-352),
and `oldval = newval` (line 353) runs last. On a ready 0→1 transition the
code computes `idleTime = trigger_not_ready_rbv - shutter_close` BEFORE
overwriting `shutter_close` with the current time, then sets
`shutterTime = shutter_close - shutter_open` with the new `shutter_close`. -/
def pollStep (s : PollState) (t : ℚ) (newReady newExposing : Bool) : PollState :=
  let s1 :=
    if newReady ≠ s.oldReady then
      if newReady then
        let idle := s.trigger_not_ready_rbv - s.shutter_close
        let sc := t
        let st := sc - s.shutter_open
        { s with idleTime := idle, idleRBV := idle,
                 shutter_close := sc, shutterTime := st, acquireRBV := st }
      else
        { s with trigger_not_ready_rbv := t }
    else s
  let s2 :=
    if newExposing ≠ s1.oldExposing then
      if newExposing then
        { s1 with shutter_open := t,
                  delayRBV := t - s1.trigger_not_ready_rbv }
      else
        { s1 with notExposing := t }
    else s1
  { s2 with oldReady := newReady, oldExposing := newExposing }

/-- Runs the poller loop over a list of timestamped samples
`(t, ready, exposing)`. -/
def pollRun (s : PollState) (samples : List (ℚ × Bool × Bool)) : PollState :=
  samples.foldl (fun st p => pollStep st p.1 p.2.1 p.2.2) s

/-- Timestamp of the last ready-line deassertion (1→0 transition between
consecutive samples) in a sample list, starting from previous line level
`prev` and default `acc`. Stated in the claim's vocabulary of line-edge
events, independently of the poller's internal state. -/
def lastReadyDeassertFrom (prev : Bool) (acc : ℚ) : List (ℚ × Bool × Bool) → ℚ
  | [] => acc
  | (t, r, _) :: rest => lastReadyDeassertFrom r (if prev ∧ ¬r then t else acc) rest

/-- Timestamp of the last ready-line assertion (0→1 transition between
consecutive samples) in a sample list, starting from previous line level
`prev` and default `acc`. -/
def lastReadyAssertFrom (prev : Bool) (acc : ℚ) : List (ℚ × Bool × Bool) → ℚ
  | [] => acc
  | (t, r, _) :: rest => lastReadyAssertFrom r (if ¬prev ∧ r then t else acc) rest

/-- Timestamp of the last exposing-line deassertion (1→0 transition between
consecutive samples) in a sample list. -/
def lastExposingDeassertFrom (prev : Bool) (acc : ℚ) : List (ℚ × Bool × Bool) → ℚ
  | [] => acc
  | (t, _, e) :: rest => lastExposingDeassertFrom e (if prev ∧ ¬e then t else acc) rest

/-- Concrete timeline of line samples `(time, ready, exposing)` covering two
full exposure cycles, as the poller loop would observe them: ready asserts
at t=1 (previous exposure ends), ready deasserts at t=2 (trigger accepted,
detector busy), exposing runs from t=3 to t=5 (exposing deasserts at t=5,
shutter closed), ready asserts at t=6 (readout done), ready deasserts at
t=8, exposing runs from t=9 to t=12 (exposing deasserts at t=12), ready
asserts at t=13. Readout time is nonzero, so exposing-deassertion and the
following ready-assertion have different timestamps. -/
def cexSamples : List (ℚ × Bool × Bool) :=
  [(1, true, false), (2, false, false), (3, false, true), (5, false, false),
   (6, true, false), (8, false, false), (9, false, true), (12, false, false),
   (13, true, false)]

/-! ### Per-exposure statistics (`myDriver.sync`, lines 460-474) -/

/-- Percentage published to `DUTYCYCLE_RBV` at line 470:
`100 * self.shutterTime / (self.idleTime + self.shutterTime)`. -/
def dutyCyclePct (shutter idle : ℚ) : ℚ := 100 * shutter / (idle + shutter)

/-- Accumulated per-run statistics touched by the scan-busy branch of
`sync`: `self.total_cpts`, `self.dutyCycleList`, the `DUTYCYCLE_RBV`
record, `self.shutterTimeList`, `self.mean_stats`, `self.sigma_stats`. -/
structure ScanStats where
  totalCpts : ℕ
  dutyCycleList : List ℚ
  dutyCycleRBV : ℚ
  shutterTimeList : List ℚ
  meanStats : List ℚ
  sigmaStats : List ℚ
  deriving DecidableEq, Repr

/-- Embeds the statistics updates of the scan-busy branch of `myDriver.sync`
(lines 462-474) for one completed exposure: increment `total_cpts`, append
the shutter time (`self.shutterTime` in hard mode, the detector's reported
acquire time in soft mode), then, when `total_cpts > 1 and daq_init_flag
== 1`, append `shutterTime/(idleTime + shutterTime)` to `dutyCycleList` and
publish `DUTYCYCLE_RBV`, then, when `REPORT == 1`, append the image
statistics read from the detector. -/
def scanLogicStep (flag : ℕ) (report : Bool)
    (shutterTime idleTime acquireTime statsMean statsSigma : ℚ)
    (s : ScanStats) : ScanStats :=
  let s1 := { s with totalCpts := s.totalCpts + 1 }
  let s2 :=
    if flag = 1 then { s1 with shutterTimeList := s1.shutterTimeList ++ [shutterTime] }
    else { s1 with shutterTimeList := s1.shutterTimeList ++ [acquireTime] }
  let s3 :=
    if 1 < s2.totalCpts ∧ flag = 1 then
      { s2 with dutyCycleList := s2.dutyCycleList ++ [shutterTime / (idleTime + shutterTime)],
                dutyCycleRBV := dutyCyclePct shutterTime idleTime }
    else s2
  if report then
    { s3 with meanStats := s3.meanStats ++ [statsMean],
              sigmaStats := s3.sigmaStats ++ [statsSigma] }
  else s3

/-! ### End-of-scan reporting (`myDriver.afterScan`, lines 413-433, and
`myDriver.scanReport`, lines 493-510) -/

/-- Embeds the discard step of `myDriver.afterScan` (lines 418-425):
`try: self.dutyCycleList.pop(0); self.dutyCycleList.pop(1)` with a bare
`except` around BOTH pops. Python list `pop` mutates in place, so `pop(1)`
removes the element at index 1 of the list that remains after `pop(0)`;
if either pop raises `IndexError` the `except` swallows it and keeps
whatever mutation already happened. -/
def dutyDiscard : List ℚ → List ℚ
  | [] => []
  | _ :: [] => []
  | _ :: x :: [] => [x]
  | _ :: x :: _ :: rest => x :: rest

/-- Embeds `np.nanmin` applied to a (NaN-free) sample list: on a zero-size
array NumPy raises `ValueError: zero-size array to reduction operation`,
modelled as `Except.error`. (`np.nanmean`/`np.nanstd` on a zero-size array
only warn and return NaN; they do not raise.) -/
def nanminE : List ℚ → Except Unit ℚ
  | [] => Except.error ()
  | x :: xs => Except.ok (xs.foldl min x)

/-- Embeds the REPORT path of `myDriver.afterScan` (lines 417-427) together
with the duty-cycle aggregation line of `myDriver.scanReport`
(lines 505-507): when `REPORT == 1` the discard step (`dutyDiscard`) runs,
then `scanReport` is invoked, whose duty-cycle line (written only when
`daq_init_flag == 1`) evaluates `np.nanmean`, `np.nanstd`, `np.nanmin`,
`np.nanmax` of the post-discard list in that order; `np.nanmin` raises on
an empty list and nothing catches it, so the exception escapes the
reporting path (modelled as `Except.error`). On success the value is the
post-discard list the aggregation operated on; `Except.ok none` means no
report was attempted. -/
def afterScanReport (flag : ℕ) (report : Bool) (duty : List ℚ) :
    Except Unit (Option (List ℚ)) :=
  if report then
    let d := dutyDiscard duty
    if flag = 1 then
      match nanminE d with
      | Except.ok _ => Except.ok (some d)
      | Except.error e => Except.error e
    else Except.ok (some d)
  else Except.ok none

/-! ### Scan abort (`myDriver.scanAbortSeq`, lines 586-601) -/

/-- Driver state touched by the scan-abort sequence: the `XSYNC` mode, the
commanded flux-source state, the `TRIGGER` record, the `REPORT` enum and
the accumulated statistics lists. `self.shutterTimeList` is listed
separately from the lists reset at lines 594-597 because `scanAbortSeq`
resets `self.shutterTime` (a scalar at that point) and never touches
`self.shutterTimeList`. -/
structure AbortState where
  xsync : ℕ
  xrayOn : Bool
  trigger : ℕ
  report : Bool
  meanStats : List ℚ
  sigmaStats : List ℚ
  dutyCycleList : List ℚ
  shutterTimeList : List ℚ
  deriving DecidableEq, Repr

/-- Embeds `myDriver.scanAbortSeq` (lines 586-601): `stopXray()`, then
`setParam('TRIGGER', 0)`, then — only when `REPORT == 1` — clear
`mean_stats`, `sigma_stats`, `shutterTime` (the scalar) and
`dutyCycleList`. With `REPORT == 0` no statistics are cleared. -/
def scanAbortSeq (s : AbortState) : AbortState :=
  let s1 := { s with xrayOn := stopXrayCmd s.xsync s.xrayOn }
  let s2 := { s1 with trigger := 0 }
  if s2.report then
    { s2 with meanStats := [], sigmaStats := [], dutyCycleList := [] }
  else s2

/-! ## Claims -/

/-- C1: the claim states that end-of-scan aggregation on a duty-cycle
sequence `[d0, d1, d2, d3]` operates on the suffix `[d2, d3]`. The code
(`afterScan`, lines 420-421) pops index 0 and then index 1 of the mutated
list, which removes `d0` and `d2` and leaves `[d1, d3]` — contradicting the
code's own comment that "the first two points don't make sense". Evaluated
here at the failing input `[10, 20, 30, 40]`: the aggregation input is
`[20, 40]`, not `[30, 40]`. -/
theorem afterScan_discard_failing_input_eval :
    dutyDiscard [10, 20, 30, 40] = [20, 40] ∧
    dutyDiscard [10, 20, 30, 40] ≠ [30, 40] := by
  constructor
  · rfl
  · decide

/-- C9: the claim states that when fewer duty-cycle samples exist than are
to be discarded (including the empty sequence), end-of-scan reporting skips
aggregation and produces no report instead of raising. In the code the bare
`except` in `afterScan` (lines 419-425) only swallows the `IndexError` of
the pops; `scanReport` is still invoked and its duty-cycle line
(lines 505-507, hard mode) calls `np.nanmin` on the now-empty list, which
raises `ValueError` and escapes the reporting path. Evaluated at the
failing inputs: the empty list and a one-element list both make the
reporting path error. -/
theorem afterScanReport_short_input_raises :
    afterScanReport 1 true [] = Except.error () ∧
    afterScanReport 1 true [(5 : ℚ)] = Except.error () := by
  constructor <;> rfl

/-- C6: `stopXray` (lines 403-411) is a no-op when the source mode is
`NONE` (`XSYNC = 0`), unconditionally issues the off command otherwise, and
is idempotent on the commanded source state in every mode. -/
theorem stopXray_noop_off_idempotent (m : ℕ) (b : Bool) :
    (m = 0 → stopXrayCmd m b = b ∧ stopXrayActs m = []) ∧
    (m ≠ 0 → stopXrayCmd m b = false ∧
      stopXrayActs m = [Act.caputXrayOff, Act.logMsg]) ∧
    stopXrayCmd m (stopXrayCmd m b) = stopXrayCmd m b := by
  refine ⟨fun h => ?_, fun h => ?_, ?_⟩
  · subst h; simp [stopXrayCmd, stopXrayActs]
  · simp [stopXrayCmd, stopXrayActs, h]
  · by_cases h : m = 0 <;> simp [stopXrayCmd, h]

/-- Witness for C6: concrete evaluation at mode `OXFORD` (2) with the
source commanded on. -/
theorem stopXray_noop_off_idempotent_witness :
    stopXrayCmd 2 true = false ∧
    stopXrayActs 2 = [Act.caputXrayOff, Act.logMsg] ∧
    stopXrayCmd 2 (stopXrayCmd 2 true) = stopXrayCmd 2 true :=
  ⟨((stopXray_noop_off_idempotent 2 true).2.1 (by decide)).1,
   ((stopXray_noop_off_idempotent 2 true).2.1 (by decide)).2,
   (stopXray_noop_off_idempotent 2 true).2.2⟩

/-- C10: every write to `SYNC_MODE_RBV` (lines 307-313) discards the
written value and stores the DAQ initialization flag itself (1 = HARD when
DAQ task creation succeeded, 0 = SOFT otherwise), so the reported sync mode
reads HARD exactly when the flag selecting the hard protocol in `sync` is
set. `self.daq_init_flag` is only ever assigned 0 or 1 (lines 185-187). -/
theorem syncModeRBV_tracks_daq_flag (flag : ℕ) (v : ℤ) (h : flag ≤ 1) :
    writeSyncModeRBV flag v = flag ∧
    (writeSyncModeRBV flag v = 1 ↔ flag = 1) := by
  interval_cases flag <;> simp [writeSyncModeRBV]

/-- Witness for C10: a write of 7 to `SYNC_MODE_RBV` with a failed DAQ
initialization stores 0 (SOFT). -/
theorem syncModeRBV_tracks_daq_flag_witness :
    writeSyncModeRBV 0 7 = 0 ∧ (writeSyncModeRBV 0 7 = 1 ↔ (0 : ℕ) = 1) :=
  syncModeRBV_tracks_daq_flag 0 7 (by decide)

/-- C7 counterexample: the claim states that a scan abort clears all
accumulated per-run statistics regardless of configuration such as whether
report writing is enabled. With `REPORT = 0` (fourth field `false`) and a
non-empty duty-cycle list, `scanAbortSeq` (lines 586-601) leaves the
duty-cycle list untouched, because the clearing block is guarded by
`if self.getParam('REPORT') == 1`. -/
theorem scanAbort_cex :
    (scanAbortSeq ⟨2, true, 1, false, [1], [1], [3], [4]⟩).dutyCycleList ≠ [] := by
  decide

/-- C7 amended: a scan abort, from any state, stops the flux source (unless
the mode is `NONE`, where `stopXray` is a no-op) and resets the trigger to
idle; it clears the duty-cycle list and the image statistics only when
report writing is enabled — with reporting disabled the accumulated
statistics are left in place — and `shutterTimeList` is not cleared in
either case. -/
theorem scanAbort_effects (s : AbortState) :
    (scanAbortSeq s).trigger = 0 ∧
    (s.xsync ≠ 0 → (scanAbortSeq s).xrayOn = false) ∧
    (s.xsync = 0 → (scanAbortSeq s).xrayOn = s.xrayOn) ∧
    (scanAbortSeq s).shutterTimeList = s.shutterTimeList ∧
    (s.report = true →
      (scanAbortSeq s).meanStats = [] ∧ (scanAbortSeq s).sigmaStats = [] ∧
      (scanAbortSeq s).dutyCycleList = []) ∧
    (s.report = false →
      (scanAbortSeq s).meanStats = s.meanStats ∧
      (scanAbortSeq s).sigmaStats = s.sigmaStats ∧
      (scanAbortSeq s).dutyCycleList = s.dutyCycleList) := by
  cases hr : s.report <;> by_cases hx : s.xsync = 0 <;>
    simp [scanAbortSeq, stopXrayCmd, hr, hx]

/-- Witness for C7 (amended): concrete evaluation with `REPORT = 1` and
mode `OXFORD`. -/
theorem scanAbort_effects_witness :
    (scanAbortSeq ⟨2, true, 1, true, [1], [2], [3], [4]⟩).trigger = 0 ∧
    (scanAbortSeq ⟨2, true, 1, true, [1], [2], [3], [4]⟩).xrayOn = false ∧
    (scanAbortSeq ⟨2, true, 1, true, [1], [2], [3], [4]⟩).dutyCycleList = [] ∧
    (scanAbortSeq ⟨2, true, 1, true, [1], [2], [3], [4]⟩).shutterTimeList = [4] := by
  have h := scanAbort_effects ⟨2, true, 1, true, [1], [2], [3], [4]⟩
  exact ⟨h.1, h.2.1 (by decide), (h.2.2.2.2.1 rfl).2.2, h.2.2.2.1⟩

/-- C5: in a running scan with the hard protocol, the duty-cycle percentage
is published only on the second and later completed exposures
(`total_cpts > 1` after the increment, lines 462, 468-470), equals
`shutterDuration / (idleDuration + shutterDuration) * 100`, and at
`shutterDuration = 1`, `idleDuration = 1` equals exactly 50. -/
theorem dutyCycle_second_and_later (report : Bool) (st idle acq m sg : ℚ)
    (s : ScanStats) (h : 1 ≤ s.totalCpts) :
    (scanLogicStep 1 report st idle acq m sg s).dutyCycleRBV
        = st / (idle + st) * 100 ∧
    (scanLogicStep 1 report st idle acq m sg s).dutyCycleList
        = s.dutyCycleList ++ [st / (idle + st)] ∧
    (∀ s' : ScanStats, s'.totalCpts = 0 →
      (scanLogicStep 1 report st idle acq m sg s').dutyCycleRBV = s'.dutyCycleRBV ∧
      (scanLogicStep 1 report st idle acq m sg s').dutyCycleList = s'.dutyCycleList) ∧
    dutyCyclePct 1 1 = 50 := by
  have hc : 1 < s.totalCpts + 1 := by omega
  refine ⟨?_, ?_, ?_, by norm_num [dutyCyclePct]⟩
  · cases report <;> simp [scanLogicStep, dutyCyclePct, hc] <;> ring
  · cases report <;> simp [scanLogicStep, hc]
  · intro s' h0
    cases report <;> simp [scanLogicStep, h0]

/-- Witness for C5: concrete evaluation of the second exposure of a scan
with `shutterDuration = 1` and `idleDuration = 1`: the published duty cycle
is 50. -/
theorem dutyCycle_second_and_later_witness :
    (scanLogicStep 1 false 1 1 1 0 0 ⟨1, [], 0, [1], [], []⟩).dutyCycleRBV
        = 1 / (1 + 1) * 100 ∧
    (scanLogicStep 1 false 1 1 1 0 0 ⟨1, [], 0, [1], [], []⟩).dutyCycleList
        = [] ++ [1 / (1 + 1)] ∧
    dutyCyclePct 1 1 = 50 := by
  have h := dutyCycle_second_and_later false 1 1 1 0 0 ⟨1, [], 0, [1], [], []⟩ (by decide)
  exact ⟨h.1, h.2.1, h.2.2.2⟩

/-- Helper: `startXray` never performs a DAQ digital-line operation in any
mode/status combination. -/
theorem startXrayActs_no_hard_io (xsync status : ℕ) :
    ∀ a ∈ startXrayActs xsync status, isHardIOAct a = false := by
  unfold startXrayActs
  repeat' split
  all_goals decide

/-- Helper: `startXray` never records or publishes per-exposure
statistics. -/
theorem startXrayActs_no_stat (xsync status : ℕ) :
    ∀ a ∈ startXrayActs xsync status, isStatAct a = false := by
  unfold startXrayActs
  repeat' split
  all_goals decide

/-- Helper: the scan-logic tail of `sync` never performs a DAQ digital-line
operation, for any flag, configuration or scan state. -/
theorem scanTailActs_no_hard_io (flag : ℕ) (r b : Bool) (c n x : ℕ) :
    ∀ a ∈ scanTailActs flag r b c n x, isHardIOAct a = false := by
  unfold scanTailActs stopXrayActs
  repeat' split
  all_goals decide

/-- C2 counterexample: the claim states that when the Flux Controller
reports a fault (`STATUS_RBV = 5`) the run aborts and the Trigger Driver is
never invoked. In the code `startXray` only prints and returns `None`
(lines 376-378) and `sync` never inspects any result (line 442), so with
the hard protocol the trigger writes still happen: at the concrete input
(`XSYNC = OXFORD`, fault status, DAQ initialized, no scan busy) the run
trace contains both trigger writes. -/
theorem sync_fault_still_triggers_cex :
    startXrayActs 2 5 = [Act.logMsg] ∧
    Act.triggerWrite 0 ∈ syncActs ⟨2, 5, 1, false, false, 0, 1, 0⟩ ∧
    Act.triggerWrite 1 ∈ syncActs ⟨2, 5, 1, false, false, 0, 1, 0⟩ := by
  refine ⟨rfl, ?_, ?_⟩ <;> decide

/-- C2 amended: if the Flux Controller reports a fault or warming state at
run start, `startXray` returns immediately without issuing any source
command (the condition is only logged), but the run does not abort: when
the DAQ is initialized the sequencer proceeds to invoke the Trigger Driver
exactly as if flux-on had succeeded. -/
theorem sync_fault_warming_still_triggers (i : SyncInput) (hx : i.xsync = 2)
    (hs : i.xrayStatus = 5 ∨ i.xrayStatus = 0) :
    startXrayActs i.xsync i.xrayStatus = [Act.logMsg] ∧
    (i.daqInitFlag = 1 →
      Act.triggerWrite 0 ∈ syncActs i ∧ Act.triggerWrite 1 ∈ syncActs i) := by
  constructor
  · rcases hs with h | h <;> simp [startXrayActs, hx, h]
  · intro hf
    have h0 : Act.triggerWrite 0 ∈ hardTriggerActs := by decide
    have h1 : Act.triggerWrite 1 ∈ hardTriggerActs := by decide
    constructor <;> simp [syncActs, hf] <;> [exact Or.inr (Or.inl h0); exact Or.inr (Or.inl h1)]

/-- Witness for C2 (amended): concrete evaluation at warming status
(`STATUS_RBV = 0`) with the DAQ initialized and a scan running. -/
theorem sync_fault_warming_still_triggers_witness :
    startXrayActs 2 0 = [Act.logMsg] ∧
    Act.triggerWrite 0 ∈ syncActs ⟨2, 0, 1, true, false, 0, 5, 0⟩ ∧
    Act.triggerWrite 1 ∈ syncActs ⟨2, 0, 1, true, false, 0, 5, 0⟩ := by
  have h := sync_fault_warming_still_triggers ⟨2, 0, 1, true, false, 0, 5, 0⟩ rfl (Or.inr rfl)
  exact ⟨h.1, (h.2 rfl).1, (h.2 rfl).2⟩

/-- C4: with the DAQ initialized (hard protocol), one run of `sync`
performs exactly: flux-on sequence, trigger write low, 25 ms settle sleep,
poll until `TRIGGER_READY_RBV` asserted, trigger write high, the same 25 ms
settle sleep, poll until `EXPOSING_RBV` deasserts — in this order — and
only then the scan tail, which is where all per-exposure statistics
actions live (neither `startXray` nor the trigger segment performs any
statistics action). -/
theorem hard_protocol_step_sequence (i : SyncInput) (hf : i.daqInitFlag = 1) :
    syncActs i =
      startXrayActs i.xsync i.xrayStatus
        ++ [Act.triggerWrite 0, Act.sleepFor SETTLE_DELAY, Act.pollTriggerReady,
            Act.triggerWrite 1, Act.sleepFor SETTLE_DELAY, Act.pollExposingDone]
        ++ scanTailActs 1 i.report i.scanBusy (i.totalCptsBefore + 1) i.totalNpts i.xsync ∧
    SETTLE_DELAY = 25 / 1000 ∧
    (∀ a ∈ startXrayActs i.xsync i.xrayStatus, isStatAct a = false) ∧
    (∀ a ∈ hardTriggerActs, isStatAct a = false) := by
  refine ⟨?_, rfl, startXrayActs_no_stat i.xsync i.xrayStatus, by decide⟩
  simp [syncActs, hardTriggerActs, hf]

/-- Witness for C4: concrete evaluation of a hard-protocol run (OXFORD
mode, standby source, scan busy). -/
theorem hard_protocol_step_sequence_witness :
    syncActs ⟨2, 1, 1, true, false, 0, 5, 3⟩ =
      startXrayActs 2 1
        ++ [Act.triggerWrite 0, Act.sleepFor SETTLE_DELAY, Act.pollTriggerReady,
            Act.triggerWrite 1, Act.sleepFor SETTLE_DELAY, Act.pollExposingDone]
        ++ scanTailActs 1 false true 1 5 2 :=
  (hard_protocol_step_sequence ⟨2, 1, 1, true, false, 0, 5, 3⟩ rfl).1

/-- C8: with the DAQ not initialized (soft protocol), a run of `sync` never
invokes the Trigger Driver and never touches the digital input lines: its
trace contains no trigger write and no line poll, it issues the detector
software-trigger command and sleeps for the detector's reported acquire
time instead; moreover `write('SEND_TRIGGER', …)` spawns no trigger thread
(lines 282-286) and the edge-poller thread was never started
(lines 182-187). -/
theorem soft_protocol_no_hard_io (i : SyncInput) (hf : i.daqInitFlag = 0) :
    (∀ a ∈ syncActs i, isHardIOAct a = false) ∧
    Act.softTrigger ∈ syncActs i ∧
    Act.sleepFor i.acquireTime ∈ syncActs i ∧
    writeSendTriggerSpawns i.daqInitFlag = false ∧
    pollerThreadStarted i.daqInitFlag = false := by
  refine ⟨?_, ?_, ?_, by simp [hf, writeSendTriggerSpawns],
          by simp [hf, pollerThreadStarted]⟩
  · intro a ha
    unfold syncActs at ha
    rw [hf] at ha
    simp only [List.mem_append] at ha
    rcases ha with (ha | ha) | ha
    · exact startXrayActs_no_hard_io _ _ a ha
    · simp [softTriggerActs] at ha
      rcases ha with h | h | h | h <;> simp [h, isHardIOAct]
    · exact scanTailActs_no_hard_io _ _ _ _ _ _ a ha
  · simp [syncActs, hf, softTriggerActs]
  · simp [syncActs, hf, softTriggerActs]

/-- Witness for C8: concrete evaluation of a soft-protocol run (dark mode,
scan busy, acquire time 2 s). -/
theorem soft_protocol_no_hard_io_witness :
    Act.softTrigger ∈ syncActs ⟨0, 1, 0, true, false, 0, 3, 2⟩ ∧
    Act.sleepFor 2 ∈ syncActs ⟨0, 1, 0, true, false, 0, 3, 2⟩ ∧
    writeSendTriggerSpawns 0 = false ∧
    pollerThreadStarted 0 = false ∧
    isHardIOAct Act.softTrigger = false := by
  have h := soft_protocol_no_hard_io ⟨0, 1, 0, true, false, 0, 3, 2⟩ rfl
  exact ⟨h.2.1, h.2.2.1, h.2.2.2.1, h.2.2.2.2, h.1 _ h.2.1⟩

/-- Helper: the final `oldval = newval` of each poller iteration
(line 353). -/
theorem pollStep_oldReady (s : PollState) (t : ℚ) (r e : Bool) :
    (pollStep s t r e).oldReady = r := by
  obtain ⟨oR, oE, it, sc, so, tnr, st, ne, irbv, arbv, drbv⟩ := s
  cases r <;> cases e <;> cases oR <;> cases oE <;> simp [pollStep]

/-- Helper: `self.trigger_not_ready_rbv` is overwritten with the sample
time exactly on a ready 1→0 transition (line 339). -/
theorem pollStep_tnr (s : PollState) (t : ℚ) (r e : Bool) :
    (pollStep s t r e).trigger_not_ready_rbv
      = if s.oldReady ∧ ¬r then t else s.trigger_not_ready_rbv := by
  obtain ⟨oR, oE, it, sc, so, tnr, st, ne, irbv, arbv, drbv⟩ := s
  cases r <;> cases e <;> cases oR <;> cases oE <;> simp [pollStep]

/-- Helper: `self.shutter_close` is overwritten with the sample time
exactly on a ready 0→1 transition (line 333). -/
theorem pollStep_shutter_close (s : PollState) (t : ℚ) (r e : Bool) :
    (pollStep s t r e).shutter_close
      = if ¬s.oldReady ∧ r then t else s.shutter_close := by
  obtain ⟨oR, oE, it, sc, so, tnr, st, ne, irbv, arbv, drbv⟩ := s
  cases r <;> cases e <;> cases oR <;> cases oE <;> simp [pollStep]

/-- Helper: `IDLE_RBV` is published exactly on a ready 0→1 transition, with
the value `trigger_not_ready_rbv - shutter_close` taken from the state
BEFORE the transition (lines 330-331). -/
theorem pollStep_idleRBV (s : PollState) (t : ℚ) (r e : Bool) :
    (pollStep s t r e).idleRBV
      = if ¬s.oldReady ∧ r then s.trigger_not_ready_rbv - s.shutter_close
        else s.idleRBV := by
  obtain ⟨oR, oE, it, sc, so, tnr, st, ne, irbv, arbv, drbv⟩ := s
  cases r <;> cases e <;> cases oR <;> cases oE <;> simp [pollStep]

/-- Helper: over any sample list, the poller's `trigger_not_ready_rbv`
field holds the timestamp of the last ready-line deassertion. -/
theorem pollRun_tnr_eq (samples : List (ℚ × Bool × Bool)) :
    ∀ s : PollState, (pollRun s samples).trigger_not_ready_rbv
      = lastReadyDeassertFrom s.oldReady s.trigger_not_ready_rbv samples := by
  induction samples with
  | nil => intro s; rfl
  | cons p rest ih =>
    intro s
    obtain ⟨t, r, e⟩ := p
    have hstep : pollRun s ((t, r, e) :: rest) = pollRun (pollStep s t r e) rest := rfl
    rw [hstep, ih, pollStep_oldReady, pollStep_tnr]
    rfl

/-- Helper: over any sample list, the poller's `shutter_close` field holds
the timestamp of the last ready-line assertion. -/
theorem pollRun_shutter_close_eq (samples : List (ℚ × Bool × Bool)) :
    ∀ s : PollState, (pollRun s samples).shutter_close
      = lastReadyAssertFrom s.oldReady s.shutter_close samples := by
  induction samples with
  | nil => intro s; rfl
  | cons p rest ih =>
    intro s
    obtain ⟨t, r, e⟩ := p
    have hstep : pollRun s ((t, r, e) :: rest) = pollRun (pollStep s t r e) rest := rfl
    rw [hstep, ih, pollStep_oldReady, pollStep_shutter_close]
    rfl

/-- C3 counterexample: the claim states that the idle-duration metric
equals the timestamp of the ready-line deassertion minus the timestamp of
the previous exposing-line deassertion. On the concrete `cexSamples`
timeline the final ready assertion (t=13) publishes
`IDLE_RBV = trigger_not_ready_rbv - shutter_close = 8 - 6 = 2`: the last
ready deassertion (8, over `take 8`, the history before that final
assertion) minus the last ready ASSERTION (6, the event the code logs as
`DETECTOR END EXPOSURE`) — not minus the exposing deassertion previous to
that ready deassertion (5, over `take 6`, the history up to and including
the ready deassertion at t=8) as the claim states, which would give 3. -/
theorem pollQi2_idle_metric_cex :
    (pollRun initPollState cexSamples).idleRBV
        ≠ lastReadyDeassertFrom false 0 (cexSamples.take 8)
            - lastExposingDeassertFrom false 0 (cexSamples.take 6) ∧
    (pollRun initPollState cexSamples).idleRBV = 2 ∧
    lastReadyDeassertFrom false 0 (cexSamples.take 8) = 8 ∧
    lastReadyAssertFrom false 0 (cexSamples.take 8) = 6 ∧
    lastExposingDeassertFrom false 0 (cexSamples.take 6) = 5 := by
  have h1 : (pollRun initPollState cexSamples).idleRBV = 2 := by
    norm_num [pollRun, pollStep, cexSamples, initPollState]
  have h2 : lastReadyDeassertFrom false 0 (cexSamples.take 8) = 8 := by
    norm_num [cexSamples, List.take, lastReadyDeassertFrom]
  have h3 : lastReadyAssertFrom false 0 (cexSamples.take 8) = 6 := by
    norm_num [cexSamples, List.take, lastReadyAssertFrom]
  have h4 : lastExposingDeassertFrom false 0 (cexSamples.take 6) = 5 := by
    norm_num [cexSamples, List.take, lastExposingDeassertFrom]
  refine ⟨?_, h1, h2, h3, h4⟩
  rw [h1, h2, h4]
  norm_num

/-- C3 amended: for every completed exposure observed by the edge poller,
the published idle-duration metric equals the timestamp of the ready-line
deassertion minus the timestamp of the previous ready-line ASSERTION (the
event `pollQi2` stores in `shutter_close` and logs as `DETECTOR END
EXPOSURE`), not the previous exposing-line deassertion: after any sample
history, a final ready 0→1 sample publishes `IDLE_RBV` equal to the last
ready-deassertion time minus the last ready-assertion time of the
history. -/
theorem idle_metric_is_ready_edge_difference (s : PollState)
    (samples : List (ℚ × Bool × Bool)) (t : ℚ) (e : Bool)
    (h : (pollRun s samples).oldReady = false) :
    (pollRun s (samples ++ [(t, true, e)])).idleRBV
      = lastReadyDeassertFrom s.oldReady s.trigger_not_ready_rbv samples
        - lastReadyAssertFrom s.oldReady s.shutter_close samples := by
  have hsplit : pollRun s (samples ++ [(t, true, e)])
      = pollStep (pollRun s samples) t true e := by
    unfold pollRun
    rw [List.foldl_append]
    rfl
  rw [hsplit, pollStep_idleRBV, h]
  simp only [Bool.false_eq_true, not_false_eq_true, true_and, if_true]
  rw [pollRun_tnr_eq, pollRun_shutter_close_eq]

/-- Witness for C3 (amended): on the first eight samples of `cexSamples`
followed by the ready assertion at t=13, the published idle duration equals
the last ready-deassertion time minus the last ready-assertion time. -/
theorem idle_metric_is_ready_edge_difference_witness :
    (pollRun initPollState ((cexSamples.take 8) ++ [(13, true, false)])).idleRBV
      = lastReadyDeassertFrom false 0 (cexSamples.take 8)
        - lastReadyAssertFrom false 0 (cexSamples.take 8) := by
  have h0 : (pollRun initPollState (cexSamples.take 8)).oldReady = false := by
    simp [pollRun, pollStep, cexSamples, initPollState, List.take]
  exact idle_metric_is_ready_edge_difference initPollState (cexSamples.take 8) 13 false h0

end NikonKsSync
